import Mathlib

/-! Shallow embedding of the vortex statistics aggregation engine
(VortexStatistics::process in
src/topovis/topologytoolkit/src/processors/morsesmalecomplex.cpp,
lines 245-585), together with its input guard, the helper lambdas
assignMin / assignMax / assignExtremum, the column initialisation, and
the channel count assertion.

Conventions of the embedding:

* machine floats and doubles are modelled by the rationals; the one
  place where the code stores a NaN sentinel (the per-time aspect
  ratio column, lines 533-539) uses Option, with none standing for the
  non-finite value;
* std::vector is modelled by List; vector::at, which throws
  std::out_of_range when the index is out of bounds, is modelled inside
  the per-voxel callback by an Except valued accessor, because that
  callback contains an access that can actually go out of bounds
  (line 405); in the per-timestep finalisation and in the final
  per-group pass every index that is used is bounded by construction
  (group < numGroups and numGroups * time + group < numGroups *
  numTimeSteps), so accesses there are modelled by total accessors;
* the travelled distance update uses glm::distance, a floating point
  Euclidean distance; the main model takes the metric as a parameter so
  that the whole pipeline stays computable, and a dedicated real valued
  embedding of the centre update (centerTravelStep below) is used for
  the claims about travelled distance;
* the vortex hierarchy type (VortexSet) and the constant
  AssembleWindingAngle::SEED_DEPTH come from headers that are not part
  of the sources; they are modelled from the spec where noted.
-/

/-- Total list read that returns the default value outside bounds. Models
operator[] reads of std::vector, which are in bounds at every use site
modelled with it. -/
def listGet {α : Type} (xs : List α) (i : ℕ) (d : α) : α :=
  match xs, i with
  | [], _ => d
  | a :: _, 0 => a
  | _ :: t, n + 1 => listGet t n d

/-- Total pointwise update that leaves the list unchanged outside bounds. -/
def listModify {α : Type} (xs : List α) (i : ℕ) (f : α → α) : List α :=
  match xs, i with
  | [], _ => []
  | a :: t, 0 => f a :: t
  | a :: t, n + 1 => a :: listModify t n f

/-- Total pointwise write, a special case of listModify. -/
def listSet {α : Type} (xs : List α) (i : ℕ) (v : α) : List α :=
  listModify xs i (fun _ => v)

/-- vector::at with its bounds check: an out of range index raises
std::out_of_range, which the surrounding code does not catch. -/
def vecModifyAt {α : Type} (xs : List α) (i : ℕ) (f : α → α) :
    Except String (List α) :=
  match xs, i with
  | [], _ => Except.error "std::out_of_range"
  | a :: t, 0 => Except.ok (f a :: t)
  | a :: t, n + 1 => (vecModifyAt t n f).map (fun l => a :: l)

/-- Lines 356-359: the running minimum lambda of the engine. A zero
accumulator is treated as unset and overwritten before the minimum with
the observed value is taken. -/
def assignMin {α : Type} [LinearOrder α] [Zero α] [DecidableEq α]
    (vecVal val : α) : α :=
  let v := if vecVal = 0 then val else vecVal
  min v val

/-- Lines 360-363: the running maximum lambda, with the same zero
sentinel. -/
def assignMax {α : Type} [LinearOrder α] [Zero α] [DecidableEq α]
    (vecVal val : α) : α :=
  let v := if vecVal = 0 then val else vecVal
  max v val

/-- Lines 364-369: the extremum lambda. A zero accumulator takes the
observed value; otherwise the value replaces the accumulator only when
its absolute value is strictly larger. -/
def assignExtremum (vecVal val : ℚ) : ℚ :=
  if vecVal = 0 then val
  else if |val| > |vecVal| then val
  else vecVal

/-- Integer 3d extent, also used as a voxel index. Models size3_t. -/
structure Size3 where
  x : ℕ
  y : ℕ
  z : ℕ
deriving DecidableEq

/-- Rotation sense of a vortex. Models Vortex::Turning. -/
inductive Turning where
  | Clockwise
  | CounterClockwise
deriving DecidableEq

/-- Modelled from the spec: one vortex instance of the hierarchy (the
Vortex type lives in a header that is not part of the sources). The
spec lists per vortex geometric attributes, a depth (height slice), and
a parent-group link; the engine reads heightSlice, minRadius,
maxRadius, avgRadius, rotation, center, and the parent group of the
vortex found at the seed depth. -/
structure Vortex where
  heightSlice : ℕ
  minRadius : ℚ
  maxRadius : ℚ
  avgRadius : ℚ
  rotation : Turning
  center : ℚ × ℚ
  parentGroup : ℤ
deriving DecidableEq

/-- Modelled from the spec: the vortex group hierarchy exposes the total
group count and per-group iteration over vortex instances; beginGroup /
endGroup of group g delimit the list at index g. -/
structure VortexSet where
  groups : List (List Vortex)
deriving DecidableEq

/-- Total group count known to the hierarchy (VortexSet::numGroups). -/
def VortexSet.numGroups (vs : VortexSet) : ℕ := vs.groups.length

/-- VortexStatistics::ColumnPair from the processor header (the header is
not part of the sources; the .cpp uses exactly two members, PerGroup and
PerGroupPerTime, pointing to the column of the summary table and of the
per-time table). Pointers into the data frames become values with
explicit state passing. -/
structure ColumnPair (α : Type) where
  PerGroup : List α
  PerGroupPerTime : List α
deriving DecidableEq

/-- Lines 313-315: the four column pairs made for each named volumetric
scalar channel. -/
structure ScalarCols where
  Surface : ColumnPair ℚ
  Average : ColumnPair ℚ
  Min : ColumnPair ℚ
  Max : ColumnPair ℚ
deriving DecidableEq

/-- Lines 330-332: the three column pairs made for each named surface
scalar channel. -/
structure TopScalarCols where
  Extreme : ColumnPair ℚ
  Min : ColumnPair ℚ
  Max : ColumnPair ℚ
deriving DecidableEq

/-- The whole mutable state of one aggregation run: every column of the
two output tables (lines 282-343) plus the local prevCenters vector
(line 370). The per-time aspect ratio column stores Option values so
that the NaN written at line 538 has a representation. -/
structure Stats where
  colEnsemble : ColumnPair ℤ
  colGroup : ColumnPair ℤ
  colTimeStep : List ℤ
  colNumVoxels : ColumnPair ℤ
  colNumTopVoxels : ColumnPair ℤ
  colMaxDepth : ColumnPair ℤ
  colAspectRatioPerGroup : List ℚ
  colAspectRatioPerTime : List (Option ℚ)
  colAvgRadius : ColumnPair ℚ
  colLifeTime : List ℤ
  colStartTime : List ℤ
  colRotation : List ℤ
  colCenterX : List ℚ
  colCenterY : List ℚ
  colStartX : List ℚ
  colStartY : List ℚ
  colEndX : List ℚ
  colEndY : List ℚ
  colTravel : List ℚ
  colScalars : List ScalarCols
  colTopScalars : List TopScalarCols
  prevCenters : List (ℚ × ℚ)
deriving DecidableEq

/-- A column pair with both columns constant. createColumn resizes a
fresh column to the row count, filling it with the initial value. -/
def constCP {α : Type} (ng ngt : ℕ) (v : α) : ColumnPair α :=
  { PerGroup := List.replicate ng v, PerGroupPerTime := List.replicate ngt v }

/-- Zero initialised column pairs of one volumetric scalar channel
(lines 320-327, initial value 0). -/
def zeroScalarCols (ng ngt : ℕ) : ScalarCols :=
  { Surface := constCP ng ngt 0
    Average := constCP ng ngt 0
    Min := constCP ng ngt 0
    Max := constCP ng ngt 0 }

/-- Zero initialised column pairs of one surface scalar channel
(lines 337-341, initial value 0). -/
def zeroTopScalarCols (ng ngt : ℕ) : TopScalarCols :=
  { Extreme := constCP ng ngt 0
    Min := constCP ng ngt 0
    Max := constCP ng ngt 0 }

/-- Lines 316-328: one ScalarColumns record is appended per declared
scalar name (every name property is a StringProperty, so the dynamic
cast always succeeds). -/
def mkColScalars (names : List String) (ng ngt : ℕ) : List ScalarCols :=
  names.map (fun _ => zeroScalarCols ng ngt)

/-- Lines 333-343: one SurfaceColumns record is appended per declared
surface scalar name. -/
def mkColTopScalars (names : List String) (ng ngt : ℕ) : List TopScalarCols :=
  names.map (fun _ => zeroTopScalarCols ng ngt)

/-- Line 351: the condition of the ivwAssert that is meant to check that
the declared name count matches the component count of the volumes. It
compares four (three) times the component count with the length of the
per-channel record vectors, whose length is the name count. -/
def channelCountAssert (numScalars numTopScalars : ℕ)
    (colScalars : List ScalarCols) (colTopScalars : List TopScalarCols) : Bool :=
  decide (numScalars * 4 = colScalars.length) &&
    decide (numTopScalars * 3 = colTopScalars.length)

/-- Lines 277-343 and 370: fresh columns for one run. Row counts:
numGroups for the summary table and numGroupTimeSteps = numTimeSteps *
numGroups (line 260) for the per-time table. Initial values: ensemble
member id for the Ensemble columns, numTimeSteps for Start Time
(line 294), zero everywhere else; prevCenters starts at the origin. -/
def initStats (ng nts : ℕ) (scalarNames topScalarNames : List String)
    (ensemble : ℤ) : Stats :=
  let ngt := nts * ng
  { colEnsemble := constCP ng ngt ensemble
    colGroup := constCP ng ngt 0
    colTimeStep := List.replicate ngt 0
    colNumVoxels := constCP ng ngt 0
    colNumTopVoxels := constCP ng ngt 0
    colMaxDepth := constCP ng ngt 0
    colAspectRatioPerGroup := List.replicate ng 0
    colAspectRatioPerTime := List.replicate ngt (some 0)
    colAvgRadius := constCP ng ngt 0
    colLifeTime := List.replicate ng 0
    colStartTime := List.replicate ng (nts : ℤ)
    colRotation := List.replicate ng 0
    colCenterX := List.replicate ngt 0
    colCenterY := List.replicate ngt 0
    colStartX := List.replicate ng 0
    colStartY := List.replicate ng 0
    colEndX := List.replicate ng 0
    colEndY := List.replicate ng 0
    colTravel := List.replicate ng 0
    colScalars := mkColScalars scalarNames ng ngt
    colTopScalars := mkColTopScalars topScalarNames ng ngt
    prevCenters := List.replicate ng ((0 : ℚ), (0 : ℚ)) }

/-- One mask volume of the time series: spatial extent, the upper end of
the declared data range (dataMap_.dataRange.y, integral in every mask),
and the per-voxel integer group id. -/
structure MaskVolume where
  dims : Size3
  dataRangeY : ℕ
  data : Size3 → ℤ

/-- One multi-component scalar volume of the time series. -/
structure ScalarVolume where
  dims : Size3
  numComponents : ℕ
  data : Size3 → ℕ → ℚ

/-- The single surface scalar volume whose third axis indexes time. -/
structure TopVolume where
  dims : Size3
  numComponents : ℕ
  data : Size3 → ℕ → ℚ

/-- Placeholder mask volume used only to give total head and last
accessors a default; the guard rules out the empty series before any
use. -/
def defaultMaskVolume : MaskVolume :=
  { dims := ⟨0, 0, 0⟩, dataRangeY := 0, data := fun _ => 0 }

/-- Placeholder scalar volume, see defaultMaskVolume. -/
def defaultScalarVolume : ScalarVolume :=
  { dims := ⟨0, 0, 0⟩, numComponents := 0, data := fun _ _ => 0 }

/-- Placeholder surface volume, see defaultMaskVolume. -/
def defaultTopVolume : TopVolume :=
  { dims := ⟨0, 0, 0⟩, numComponents := 0, data := fun _ _ => 0 }

/-- Everything VortexStatistics::process reads: the four inports (none
models a port without data or a null handle), the two name lists, the
ensemble member, the skip-last-group flag, the seed depth constant
(AssembleWindingAngle::SEED_DEPTH, declared outside the sources), and
the assemble flag. -/
structure RunInput where
  doAssemble : Bool
  maskVolumes : Option (List MaskVolume)
  scalarVolumes : Option (List ScalarVolume)
  topScalarVolume : Option TopVolume
  vortices : Option VortexSet
  scalarNames : List String
  topScalarNames : List String
  ensembleMember : ℤ
  skipLastGroup : Bool
  seedDepth : ℕ

/-- size_t subtraction of one: 0 - 1 wraps around, as in
vortices->numGroups() - 1 at line 257. -/
def sizetSub1 (n : ℕ) : ℕ :=
  if n = 0 then 2 ^ 64 - 1 else n - 1

/-- Lines 255-257: numGroups = min(dataRange.y - 1 of the last mask
volume, hierarchy group count, the latter less one when the skip last
group flag is set). dataRange.y is a double cast to size_t; the model
takes its integral value, so the subtraction matches for
dataRangeY >= 1 (the cast of a negative double is undefined in C++ and
not modelled). -/
def numGroupsOf (dataRangeY : ℕ) (hierGroups : ℕ) (skipLast : Bool) : ℕ :=
  min (dataRangeY - 1) (if skipLast then sizetSub1 hierGroups else hierGroups)

/-- Outcome of the entry checks of process(). noop: lines 246-251, the
silent return that leaves both outports untouched. abortDims: lines
265-273, the dimension mismatch that logs a warning and returns without
writing output. proceed: the run continues. -/
inductive GuardResult where
  | noop
  | abortDims
  | proceed
deriving DecidableEq

/-- Lines 262-266: the dimension comparison between the first mask
volume, the first scalar volume and the surface volume, whose depth
extent must equal the scalar series length. -/
def dimsMismatch (masks : List MaskVolume) (scalars : List ScalarVolume)
    (top : TopVolume) : Bool :=
  let volumeDims := (masks.headD defaultMaskVolume).dims
  let scalarDims := (scalars.headD defaultScalarVolume).dims
  decide (volumeDims ≠ scalarDims) || decide (top.dims.x ≠ scalarDims.x) ||
    decide (top.dims.y ≠ scalarDims.y) || decide (top.dims.z ≠ scalars.length)

/-- Lines 247-273 without the doAssemble gate: which of the three entry
outcomes the input produces. -/
def guardOf (inp : RunInput) : GuardResult :=
  match inp.maskVolumes, inp.scalarVolumes, inp.topScalarVolume, inp.vortices with
  | some masks, some scalars, some top, some _ =>
    if masks.length = 0 then GuardResult.noop
    else if scalars.length ≠ masks.length then GuardResult.noop
    else if dimsMismatch masks scalars top then GuardResult.abortDims
    else GuardResult.proceed
  | _, _, _, _ => GuardResult.noop

/-- The no-work precondition exactly as the spec states it: mask or
scalar series empty or mismatched in length, surface volume absent, or
hierarchy absent. Stated over the input shape, independently of the
control flow of guardOf. -/
def specNoWorkCond (inp : RunInput) : Prop :=
  inp.maskVolumes = none ∨ inp.scalarVolumes = none ∨
    inp.topScalarVolume = none ∨ inp.vortices = none ∨
    (inp.maskVolumes.getD []).length = 0 ∨
    (inp.scalarVolumes.getD []).length ≠ (inp.maskVolumes.getD []).length

/-- The dimension mismatch condition as the spec states it: mask extent
against scalar extent, surface spatial extent against scalar extent,
and surface depth extent against the timestep count. -/
def specDimsMismatch (inp : RunInput) : Prop :=
  ((inp.maskVolumes.getD []).headD defaultMaskVolume).dims ≠
      ((inp.scalarVolumes.getD []).headD defaultScalarVolume).dims ∨
    (inp.topScalarVolume.getD defaultTopVolume).dims.x ≠
      ((inp.scalarVolumes.getD []).headD defaultScalarVolume).dims.x ∨
    (inp.topScalarVolume.getD defaultTopVolume).dims.y ≠
      ((inp.scalarVolumes.getD []).headD defaultScalarVolume).dims.y ∨
    (inp.topScalarVolume.getD defaultTopVolume).dims.z ≠
      (inp.scalarVolumes.getD []).length

/-- Apply an at-checked update to the summary column of a pair. -/
def cpModPG {α : Type} (cp : ColumnPair α) (i : ℕ) (f : α → α) :
    Except String (ColumnPair α) :=
  (vecModifyAt cp.PerGroup i f).map (fun l => { cp with PerGroup := l })

/-- Apply an at-checked update to the per-time column of a pair. -/
def cpModPT {α : Type} (cp : ColumnPair α) (i : ℕ) (f : α → α) :
    Except String (ColumnPair α) :=
  (vecModifyAt cp.PerGroupPerTime i f).map (fun l => { cp with PerGroupPerTime := l })

/-- util::forEachVoxel enumerates every voxel of the volume, linear
index order (x fastest, then y, then z). -/
def allVoxels (dims : Size3) : List Size3 :=
  (List.range dims.z).flatMap (fun z =>
    (List.range dims.y).flatMap (fun y =>
      (List.range dims.x).map (fun x => ⟨x, y, z⟩)))

/-- Per-timestep context of the voxel callback: group cap, current time,
seed depth, the typed mask data, the scalar volume of this timestep and
the surface scalar volume (getAsDVec4 becomes a component indexed
sample). The channel loops of the callback run over the per-channel
record vectors themselves; their C++ bounds numScalars and
numTopScalars equal the lengths of those vectors whenever the declared
names match the component counts, which holds in every run modelled
here. -/
structure VoxelCtx where
  numGroups : ℕ
  time : ℕ
  seedDepth : ℕ
  maskData : Size3 → ℤ
  scalarSample : Size3 → ℕ → ℚ
  topSample : Size3 → ℕ → ℚ

/-- Lines 390-448: the per-voxel callback. Mask id 0 or below is
skipped; ids at or above numGroups are skipped as overlap artifacts;
otherwise the id less one is the group. Line 405 increments the
PerGroup column of Num Voxels at the group-time index (the per-time
column is never incremented): at time 0 that index collapses to the
group index and double-counts, at any later time it is out of bounds
and vector::at throws. -/
def voxelCallback (ctx : VoxelCtx) (st0 : Stats) (idx : Size3) :
    Except String Stats := do
  let group : ℤ := ctx.maskData idx
  if group ≤ 0 then return st0
  if (ctx.numGroups : ℤ) ≤ group then return st0
  let g : ℕ := group.toNat - 1
  let idxGroupTime : ℕ := ctx.numGroups * ctx.time + g
  -- lines 400-401
  let startT : ℤ := min (listGet st0.colStartTime g 0) (ctx.time : ℤ)
  let st := { st0 with
    colStartTime := listSet st0.colStartTime g startT
    colLifeTime := listSet st0.colLifeTime g ((ctx.time : ℤ) - startT) }
  -- line 404
  let nv ← vecModifyAt st.colNumVoxels.PerGroup g (· + 1)
  -- line 405: PerGroup again, at the group-time index
  let nv ← vecModifyAt nv idxGroupTime (· + 1)
  let st := { st with colNumVoxels := { st.colNumVoxels with PerGroup := nv } }
  -- lines 406-407
  let md ← cpModPG st.colMaxDepth g (fun v => assignMax v (idx.z : ℤ))
  let md ← cpModPT md idxGroupTime (fun v => assignMax v (idx.z : ℤ))
  let st := { st with colMaxDepth := md }
  -- lines 410-422
  let sample : ℕ → ℚ := ctx.scalarSample idx
  let cs ← st.colScalars.enum.mapM (fun p => do
    let s := p.1
    let av ← cpModPG p.2.Average g (· + sample s)
    let av ← cpModPT av idxGroupTime (· + sample s)
    let mn ← cpModPG p.2.Min g (fun v => assignMin v (sample s))
    let mn ← cpModPT mn idxGroupTime (fun v => assignMin v (sample s))
    let mx ← cpModPG p.2.Max g (fun v => assignMax v (sample s))
    let mx ← cpModPT mx idxGroupTime (fun v => assignMax v (sample s))
    pure { p.2 with Average := av, Min := mn, Max := mx })
  let st := { st with colScalars := cs }
  -- line 425
  if idx.z ≠ ctx.seedDepth then return st
  -- lines 426-427
  let ntv ← cpModPG st.colNumTopVoxels g (· + 1)
  let ntv ← cpModPT ntv idxGroupTime (· + 1)
  let st := { st with colNumTopVoxels := ntv }
  -- lines 428-431: the volumetric sample feeds the Surface sums
  let cs2 ← st.colScalars.enum.mapM (fun p => do
    let sf ← cpModPG p.2.Surface g (· + sample p.1)
    let sf ← cpModPT sf idxGroupTime (· + sample p.1)
    pure { p.2 with Surface := sf })
  let st := { st with colScalars := cs2 }
  -- lines 434-447: resample from the surface volume at (x, y, time)
  let topSample : ℕ → ℚ := ctx.topSample ⟨idx.x, idx.y, ctx.time⟩
  let ts ← st.colTopScalars.enum.mapM (fun p => do
    let s := p.1
    let ex ← cpModPG p.2.Extreme g (fun v => assignExtremum v (topSample s))
    let ex ← cpModPT ex idxGroupTime (fun v => assignExtremum v (topSample s))
    let mn ← cpModPG p.2.Min g (fun v => assignMin v (topSample s))
    let mn ← cpModPT mn idxGroupTime (fun v => assignMin v (topSample s))
    let mx ← cpModPG p.2.Max g (fun v => assignMax v (topSample s))
    let mx ← cpModPT mx idxGroupTime (fun v => assignMax v (topSample s))
    pure { p.2 with Extreme := ex, Min := mn, Max := mx })
  return { st with colTopScalars := ts }

/-- Pure pointwise update of the summary column of a pair, used in the
finalisation passes where every index is in bounds. -/
def modPG {α : Type} (cp : ColumnPair α) (i : ℕ) (f : α → α) : ColumnPair α :=
  { cp with PerGroup := listModify cp.PerGroup i f }

/-- Pure pointwise update of the per-time column of a pair, used in the
finalisation passes where every index is in bounds. -/
def modPT {α : Type} (cp : ColumnPair α) (i : ℕ) (f : α → α) : ColumnPair α :=
  { cp with PerGroupPerTime := listModify cp.PerGroupPerTime i f }

/-- Lines 457-468: after all voxels of a timestep, turn the per-time
surface sums into averages when the per-time surface voxel count is
positive, then the per-time volumetric sums into averages when the
per-time voxel count is positive. The channel loop bound numScalars
equals the length of the channel record vector (matched
configuration). -/
def perTimeAverageDivide (st : Stats) (idxGroupTime : ℕ) : Stats :=
  let ntv : ℤ := listGet st.colNumTopVoxels.PerGroupPerTime idxGroupTime 0
  let st :=
    if 0 < ntv then
      { st with colScalars := st.colScalars.map (fun sc =>
          { sc with Surface := modPT sc.Surface idxGroupTime (· / (ntv : ℚ)) }) }
    else st
  let nv : ℤ := listGet st.colNumVoxels.PerGroupPerTime idxGroupTime 0
  if 0 < nv then
    { st with colScalars := st.colScalars.map (fun sc =>
        { sc with Average := modPT sc.Average idxGroupTime (· / (nv : ℚ)) }) }
  else st

/-- Lines 494-513: the volumetric channel part of the parent roll-up.
Sums of the child row feed the parent summary entry and the row at
parentGroupTime; min and max merge via the assign lambdas, per group
from the per-group entries and per time from the rows. Reads happen at
the statement in which they occur, so when parentGroupTime coincides
with the child row the addition doubles that row, exactly as the C++
compound assignment does there. -/
def scalarColsParentMerge (parentGroup group idxGroupTime parentGroupTime : ℕ)
    (sc : ScalarCols) : ScalarCols :=
  let sf := modPG sc.Surface parentGroup
    (· + listGet sc.Surface.PerGroupPerTime idxGroupTime 0)
  let sf := modPT sf parentGroupTime
    (· + listGet sf.PerGroupPerTime idxGroupTime 0)
  let av := modPG sc.Average parentGroup
    (· + listGet sc.Average.PerGroupPerTime idxGroupTime 0)
  let av := modPT av parentGroupTime
    (· + listGet av.PerGroupPerTime idxGroupTime 0)
  let mn := modPG sc.Min parentGroup
    (fun v => assignMin v (listGet sc.Min.PerGroup group 0))
  let mn := modPT mn parentGroupTime
    (fun v => assignMin v (listGet mn.PerGroupPerTime idxGroupTime 0))
  let mx := modPG sc.Max parentGroup
    (fun v => assignMax v (listGet sc.Max.PerGroup group 0))
  let mx := modPT mx parentGroupTime
    (fun v => assignMax v (listGet mx.PerGroupPerTime idxGroupTime 0))
  { sc with Surface := sf, Average := av, Min := mn, Max := mx }

/-- Lines 515-529: the surface channel part of the parent roll-up, with
extremum, min and max merges. -/
def topColsParentMerge (parentGroup group idxGroupTime parentGroupTime : ℕ)
    (tc : TopScalarCols) : TopScalarCols :=
  let ex := modPG tc.Extreme parentGroup
    (fun v => assignExtremum v (listGet tc.Extreme.PerGroup group 0))
  let ex := modPT ex parentGroupTime
    (fun v => assignExtremum v (listGet ex.PerGroupPerTime idxGroupTime 0))
  let mn := modPG tc.Min parentGroup
    (fun v => assignMin v (listGet tc.Min.PerGroup group 0))
  let mn := modPT mn parentGroupTime
    (fun v => assignMin v (listGet mn.PerGroupPerTime idxGroupTime 0))
  let mx := modPG tc.Max parentGroup
    (fun v => assignMax v (listGet tc.Max.PerGroup group 0))
  let mx := modPT mx parentGroupTime
    (fun v => assignMax v (listGet mx.PerGroupPerTime idxGroupTime 0))
  { tc with Extreme := ex, Min := mn, Max := mx }

/-- Lines 480-531: accumulation of the just-computed per-time totals of
a child group into its parent. Line 483 computes the row index
parentGroupTime as numGroups * time + group, that is, from the child
group index, so the per-time additions target the row of the child
itself. The channel loop runs for s below numScalars and touches both
colScalars[s] and colTopScalars[s]; the surface record vector is
truncated at numScalars entries (the C++ indexing beyond its length
would be undefined; every run modelled here has matching counts).
Statements of different channels touch disjoint records, so the
per-record merges may be applied channel by channel. -/
def parentAccumulate (numScalars numGroups time group parentGroup : ℕ)
    (st : Stats) : Stats :=
  let idxGroupTime : ℕ := numGroups * time + group
  -- line 483 verbatim: the parent row index is built from the child group
  let parentGroupTime : ℕ := numGroups * time + group
  -- lines 484-487
  let st := { st with colNumVoxels := (modPG st.colNumVoxels parentGroup
      (· + listGet st.colNumVoxels.PerGroupPerTime idxGroupTime 0)) }
  let st := { st with colNumVoxels := (modPT st.colNumVoxels parentGroupTime
      (· + listGet st.colNumVoxels.PerGroupPerTime idxGroupTime 0)) }
  -- lines 488-491
  let st := { st with colNumTopVoxels := (modPG st.colNumTopVoxels parentGroup
      (· + listGet st.colNumTopVoxels.PerGroupPerTime idxGroupTime 0)) }
  let st := { st with colNumTopVoxels := (modPT st.colNumTopVoxels parentGroupTime
      (· + listGet st.colNumTopVoxels.PerGroupPerTime idxGroupTime 0)) }
  -- lines 494-530
  let newScalars := st.colScalars.map
    (scalarColsParentMerge parentGroup group idxGroupTime parentGroupTime)
  let newTop := (st.colTopScalars.take numScalars).map
      (topColsParentMerge parentGroup group idxGroupTime parentGroupTime) ++
    st.colTopScalars.drop numScalars
  { st with colScalars := newScalars, colTopScalars := newTop }

/-- Finiteness of the float quotient maxRadius / minRadius as tested by
std::isfinite at line 533: for finite radii, and absent overflow, the
quotient is non-finite exactly when minRadius is zero. The unused first
argument keeps the call shape of the source expression. -/
def ratioIsFinite (_maxR minR : ℚ) : Bool :=
  decide (minR ≠ 0)

/-- Lines 533-539: the aspect ratio of the vortex record found at the
seed depth. When the quotient is finite it is written to the per-time
row and added to the per-group accumulator; otherwise the per-time row
receives NaN (none) and the accumulator is left alone. -/
def aspectRatioStep (v : Vortex) (group idxGroupTime : ℕ) (st : Stats) : Stats :=
  if ratioIsFinite v.maxRadius v.minRadius then
    let pt := listSet st.colAspectRatioPerTime idxGroupTime
      (some (v.maxRadius / v.minRadius))
    let pg := listModify st.colAspectRatioPerGroup group
      (· + v.maxRadius / v.minRadius)
    { st with colAspectRatioPerTime := pt, colAspectRatioPerGroup := pg }
  else
    { st with colAspectRatioPerTime :=
        (listSet st.colAspectRatioPerTime idxGroupTime none) }

/-- Context of the per-timestep finalisation loop: group cap, current
time, seed depth, the per-group vortex lists of the hierarchy, the
channel count of the volumetric scalar volume (line 349), and the
metric used by glm::distance at line 549 (kept as a parameter so the
model stays computable; the real valued centre embedding below settles
the travel distance claims). -/
structure FinCtx where
  numGroups : ℕ
  time : ℕ
  seedDepth : ℕ
  vortexGroups : List (List Vortex)
  numScalars : ℕ
  distFn : ℚ × ℚ → ℚ × ℚ → ℚ

/-- Lines 452-560: the body of the per-timestep finalisation loop for
one group. Stamps the Time and Vortex ID cells, divides the per-time
averages, looks for the vortex record of this group at the seed depth
(warning and continue when none exists), rolls the per-time totals up
to a parent of strictly smaller index, records aspect ratio, average
radius, rotation and centre, and updates the travelled distance. -/
def finalizeGroupStep (ctx : FinCtx) (st0 : Stats) (group : ℕ) : Stats :=
  let idxGroupTime : ℕ := ctx.numGroups * ctx.time + group
  -- lines 454-455
  let ts := listSet st0.colTimeStep idxGroupTime (ctx.time : ℤ)
  let cg := modPT st0.colGroup idxGroupTime (fun _ => (group : ℤ))
  let st := { st0 with colTimeStep := ts, colGroup := cg }
  -- lines 457-468
  let st := perTimeAverageDivide st idxGroupTime
  -- lines 470-478
  match (listGet ctx.vortexGroups group []).find?
      (fun v => v.heightSlice == ctx.seedDepth) with
  | none => st
  | some vortex =>
    -- lines 481-531
    let st :=
      if 0 ≤ vortex.parentGroup ∧ vortex.parentGroup < (group : ℤ) then
        parentAccumulate ctx.numScalars ctx.numGroups ctx.time group
          vortex.parentGroup.toNat st
      else st
    -- lines 533-539
    let st := aspectRatioStep vortex group idxGroupTime st
    -- lines 540-541
    let ar := modPT st.colAvgRadius idxGroupTime (fun _ => vortex.avgRadius)
    let ar := modPG ar group (· + vortex.avgRadius)
    let st := { st with colAvgRadius := ar }
    -- lines 543-544
    let rot := listSet st.colRotation group
      (if vortex.rotation = Turning.Clockwise then (0 : ℤ) else 1)
    let st := { st with colRotation := rot }
    -- lines 546-547
    let cx := listSet st.colCenterX idxGroupTime vortex.center.1
    let cy := listSet st.colCenterY idxGroupTime vortex.center.2
    let st := { st with colCenterX := cx, colCenterY := cy }
    -- lines 548-559
    if (ctx.time : ℤ) ≠ listGet st.colStartTime group 0 then
      let tr := listModify st.colTravel group
        (· + ctx.distFn vortex.center (listGet st.prevCenters group (0, 0)))
      let pc := listSet st.prevCenters group vortex.center
      let ex := listSet st.colEndX group vortex.center.1
      let ey := listSet st.colEndY group vortex.center.2
      { st with colTravel := tr, prevCenters := pc, colEndX := ex, colEndY := ey }
    else
      let sx := listSet st.colStartX group vortex.center.1
      let sy := listSet st.colStartY group vortex.center.2
      { st with colStartX := sx, colStartY := sy }

/-- Lines 564-581: the body of the final per-group pass. The Vortex ID
cell is stamped; a group with zero recorded lifetime is then skipped
entirely; otherwise aspect ratio and average radius are divided by the
lifetime, and the per-group scalar sums are divided by the respective
counts when those are positive. -/
def finalGroupUpdate (st0 : Stats) (group : ℕ) : Stats :=
  let cg := modPG st0.colGroup group (fun _ => (group : ℤ))
  let st := { st0 with colGroup := cg }
  if listGet st.colLifeTime group 0 = 0 then st
  else
    let lt : ℚ := ((listGet st.colLifeTime group 0 : ℤ) : ℚ)
    let arpg := listModify st.colAspectRatioPerGroup group (· / lt)
    let avr := modPG st.colAvgRadius group (· / lt)
    let st := { st with colAspectRatioPerGroup := arpg, colAvgRadius := avr }
    let ntv : ℤ := listGet st.colNumTopVoxels.PerGroup group 0
    let st :=
      if 0 < ntv then
        { st with colScalars := st.colScalars.map (fun sc =>
            { sc with Surface := modPG sc.Surface group (· / (ntv : ℚ)) }) }
      else st
    let nv : ℤ := listGet st.colNumVoxels.PerGroup group 0
    if 0 < nv then
      { st with colScalars := st.colScalars.map (fun sc =>
          { sc with Average := modPG sc.Average group (· / (nv : ℚ)) }) }
    else st

/-- Lines 563-581: the final pass over all groups, ascending. -/
def finalPass (numGroups : ℕ) (st : Stats) : Stats :=
  (List.range numGroups).foldl finalGroupUpdate st

/-- Lines 277-582 after a passed guard: build the fresh columns, run the
voxel pass and the finalisation for each timestep in order (groups
descending in the finalisation, line 452), then the final per-group
pass. An uncaught std::out_of_range from the voxel pass aborts the
whole run as an error. -/
def runCore (distFn : ℚ × ℚ → ℚ × ℚ → ℚ) (inp : RunInput) :
    Except String Stats := do
  let masks := inp.maskVolumes.getD []
  let scalars := inp.scalarVolumes.getD []
  let top := inp.topScalarVolume.getD defaultTopVolume
  let vs := inp.vortices.getD { groups := [] }
  let numTimeSteps := masks.length
  let ng := numGroupsOf (masks.getLastD defaultMaskVolume).dataRangeY
    vs.numGroups inp.skipLastGroup
  let numScalars := (scalars.headD defaultScalarVolume).numComponents
  let st0 := initStats ng numTimeSteps inp.scalarNames inp.topScalarNames
    inp.ensembleMember
  let stAll ← (List.range numTimeSteps).foldlM (fun st time => do
      let maskVol := masks.getD time defaultMaskVolume
      let scalarVol := scalars.getD time defaultScalarVolume
      let vctx : VoxelCtx :=
        { numGroups := ng, time := time, seedDepth := inp.seedDepth
          maskData := maskVol.data, scalarSample := scalarVol.data
          topSample := top.data }
      let st ← (allVoxels maskVol.dims).foldlM (voxelCallback vctx) st
      let fctx : FinCtx :=
        { numGroups := ng, time := time, seedDepth := inp.seedDepth
          vortexGroups := vs.groups, numScalars := numScalars
          distFn := distFn }
      pure (((List.range ng).reverse).foldl (finalizeGroupStep fctx) st))
    st0
  pure (finalPass ng stAll)

/-- Lines 245-585: the whole of VortexStatistics::process. none models a
return that writes neither outport (the assemble flag not set, missing
or empty inputs, or the dimension mismatch abort); some wraps the run,
which either completes with the final state or escapes with an uncaught
exception. -/
def runProcess (distFn : ℚ × ℚ → ℚ × ℚ → ℚ) (inp : RunInput) :
    Option (Except String Stats) :=
  if inp.doAssemble = false then none
  else
    match guardOf inp with
    | GuardResult.proceed => some (runCore distFn inp)
    | _ => none

/-- Euclidean distance of two centre points, computed in the reals:
glm::distance on dvec2 as used at line 549. -/
noncomputable def euclidDist (a b : ℚ × ℚ) : ℝ :=
  Real.sqrt ((((a.1 - b.1) ^ 2 + (a.2 - b.2) ^ 2 : ℚ) : ℝ))

/-- The pieces of state the centre and travel update of one group reads
and writes: the Travelled Distance cell, the prevCenters entry, and the
start and end centre cells. -/
structure TravelState where
  colTravel : ℝ
  prevCenter : ℚ × ℚ
  startCenter : ℚ × ℚ
  endCenter : ℚ × ℚ

/-- Initial travel state of a group: travel 0, prevCenters entry at the
origin (line 370), start and end centre columns initialised to 0. -/
def initTravelState : TravelState :=
  { colTravel := 0, prevCenter := (0, 0), startCenter := (0, 0), endCenter := (0, 0) }

/-- Lines 546-559 for one group, with the Euclidean metric in the reals:
at the start time only the start centre is recorded; at any other time
the distance from the prevCenters entry is accumulated, prevCenters is
updated, and the end centre is recorded. Note that the branch taken at
the start time does not write prevCenters. -/
noncomputable def centerTravelStep (startTime time : ℕ) (center : ℚ × ℚ)
    (st : TravelState) : TravelState :=
  if time ≠ startTime then
    { colTravel := st.colTravel + euclidDist center st.prevCenter
      prevCenter := center
      startCenter := st.startCenter
      endCenter := center }
  else
    { st with startCenter := center }

/-- Run the centre update of one group over consecutive timesteps
0, 1, ..., one recorded centre per timestep, with start time 0. -/
noncomputable def runCenterUpdatesAux (time : ℕ) (st : TravelState) :
    List (ℚ × ℚ) → TravelState
  | [] => st
  | c :: rest => runCenterUpdatesAux (time + 1) (centerTravelStep 0 time c st) rest

/-- The travel state after all timesteps, starting fresh. -/
noncomputable def runCenterUpdates (centers : List (ℚ × ℚ)) : TravelState :=
  runCenterUpdatesAux 0 initTravelState centers

/-- The quantity the spec describes: the sum of Euclidean distances
between consecutive recorded centres, the first centre contributing no
distance. -/
noncomputable def sumConsecutiveDistances : List (ℚ × ℚ) → ℝ
  | a :: b :: rest => euclidDist b a + sumConsecutiveDistances (b :: rest)
  | _ => 0

/-- Mask volume of a single voxel carrying the given group id, with a
declared data range top of 3 (so the group bound is 2). -/
def oneVoxelMask (v : ℤ) : MaskVolume :=
  { dims := ⟨1, 1, 1⟩, dataRangeY := 3, data := fun _ => v }

/-- Single voxel scalar volume with one component, value 0. -/
def oneVoxelScalar : ScalarVolume :=
  { dims := ⟨1, 1, 1⟩, numComponents := 1, data := fun _ _ => 0 }

/-- Surface scalar volume whose depth extent is the timestep count. -/
def topVolOf (nts : ℕ) : TopVolume :=
  { dims := ⟨1, 1, nts⟩, numComponents := 1, data := fun _ _ => 0 }

/-- A hierarchy of two groups with no vortex records. -/
def twoEmptyGroups : VortexSet := { groups := [[], []] }

/-- Concrete run with one timestep, two groups, and a single voxel of
group id 1 (group index 0): the smallest input on which a group
receives a voxel. Seed depth 5 keeps the surface branch and the vortex
lookup out of the picture. -/
def inputOneVoxelOneTime : RunInput :=
  { doAssemble := true
    maskVolumes := some [oneVoxelMask 1]
    scalarVolumes := some [oneVoxelScalar]
    topScalarVolume := some (topVolOf 1)
    vortices := some twoEmptyGroups
    scalarNames := ["s0"]
    topScalarNames := ["t0"]
    ensembleMember := 0
    skipLastGroup := false
    seedDepth := 5 }

/-- Concrete run with two timesteps and a single voxel of group id 1 in
each: the smallest input on which the voxel pass reaches line 405 at a
time other than 0. -/
def inputOneVoxelTwoTimes : RunInput :=
  { doAssemble := true
    maskVolumes := some [oneVoxelMask 1, oneVoxelMask 1]
    scalarVolumes := some [oneVoxelScalar, oneVoxelScalar]
    topScalarVolume := some (topVolOf 2)
    vortices := some twoEmptyGroups
    scalarNames := ["s0"]
    topScalarNames := ["t0"]
    ensembleMember := 0
    skipLastGroup := false
    seedDepth := 5 }

/-- The identically zero metric, passed to runs in which the travelled
distance update is never reached (no vortex record sits at the seed
depth) or whose statement does not concern the travel column. -/
def zeroDist : ℚ × ℚ → ℚ × ℚ → ℚ := fun _ _ => 0

/-- Projection of a run result onto the Num Voxels column pair. -/
def resultNumVoxels (r : Option (Except String Stats)) :
    Option (List ℤ × List ℤ) :=
  match r with
  | some (Except.ok st) => some (st.colNumVoxels.PerGroup, st.colNumVoxels.PerGroupPerTime)
  | _ => none

/-- State on which the parent roll-up of one timestep is exercised in
isolation: two groups, one timestep, one channel of each kind; the
child group 1 carries per-time counts 5 and 3 in its row (row index
numGroups * 0 + 1 = 1) and the same values in its summary entries. -/
def parentMergeState : Stats :=
  { initStats 2 1 ["s0"] ["t0"] 0 with
    colNumVoxels := { PerGroup := [0, 5], PerGroupPerTime := [0, 5] }
    colNumTopVoxels := { PerGroup := [0, 3], PerGroupPerTime := [0, 3] } }

/-- State of one group, one timestep, one channel on which the final
pass is exercised: lifetime 0 (the group was seen at a single
timestep), 2 voxels, volumetric sum 4 - so the true average would
be 2. -/
def lifetimeZeroState : Stats :=
  { initStats 1 1 ["s0"] ["t0"] 0 with
    colNumVoxels := { PerGroup := [2], PerGroupPerTime := [2] }
    colScalars := [{ zeroScalarCols 1 1 with Average := { PerGroup := [4], PerGroupPerTime := [4] } }] }

/-- Accessor: per-time Surface cell of channel s at a row. -/
def surfPT (st : Stats) (s idx : ℕ) : ℚ :=
  listGet (listGet st.colScalars s (zeroScalarCols 0 0)).Surface.PerGroupPerTime idx 0

/-- Accessor: per-time Average cell of channel s at a row. -/
def avgPT (st : Stats) (s idx : ℕ) : ℚ :=
  listGet (listGet st.colScalars s (zeroScalarCols 0 0)).Average.PerGroupPerTime idx 0

/-- Accessor: summary Surface cell of channel s for a group. -/
def surfPG (st : Stats) (s group : ℕ) : ℚ :=
  listGet (listGet st.colScalars s (zeroScalarCols 0 0)).Surface.PerGroup group 0

/-- Accessor: summary Average cell of channel s for a group. -/
def avgPG (st : Stats) (s group : ℕ) : ℚ :=
  listGet (listGet st.colScalars s (zeroScalarCols 0 0)).Average.PerGroup group 0

/-- Input with the assemble flag set and no data on any port. -/
def noopInput : RunInput :=
  { doAssemble := true
    maskVolumes := none
    scalarVolumes := none
    topScalarVolume := none
    vortices := none
    scalarNames := []
    topScalarNames := []
    ensembleMember := 0
    skipLastGroup := true
    seedDepth := 0 }

/-- State of one group over two timesteps with lifetime 1, 2 voxels and
volumetric sum 4, on which the final pass does divide. -/
def dividedState : Stats :=
  { initStats 1 2 ["s0"] ["t0"] 0 with
    colLifeTime := [1]
    colNumVoxels := { PerGroup := [2], PerGroupPerTime := [1, 1] }
    colScalars := [{ zeroScalarCols 1 2 with Average := { PerGroup := [4], PerGroupPerTime := [1, 3] } }] }

/-- A vortex record at the seed depth with a degenerate (zero) minimum
radius. -/
def vortexZeroMin : Vortex :=
  { heightSlice := 0
    minRadius := 0
    maxRadius := 1
    avgRadius := 1
    rotation := Turning.Clockwise
    center := (0, 0)
    parentGroup := -1 }

theorem listGet_oob {α : Type} (xs : List α) (i : ℕ) (d : α)
    (h : xs.length ≤ i) : listGet xs i d = d := by
  induction xs generalizing i with
  | nil => simp [listGet]
  | cons a t ih =>
    cases i with
    | zero => simp at h
    | succ n => simpa [listGet] using ih n (by simpa using h)

theorem length_listModify {α : Type} (xs : List α) (i : ℕ) (f : α → α) :
    (listModify xs i f).length = xs.length := by
  induction xs generalizing i with
  | nil => simp [listModify]
  | cons a t ih =>
    cases i with
    | zero => simp [listModify]
    | succ n => simpa [listModify] using ih n

theorem listGet_listModify_self {α : Type} (xs : List α) (i : ℕ) (f : α → α)
    (d : α) :
    listGet (listModify xs i f) i d =
      if i < xs.length then f (listGet xs i d) else d := by
  induction xs generalizing i with
  | nil => simp [listModify, listGet]
  | cons a t ih =>
    cases i with
    | zero => simp [listModify, listGet]
    | succ n => simpa [listModify, listGet, Nat.succ_lt_succ_iff] using ih n

theorem listGet_map_with_default {α β : Type} (g : α → β) (xs : List α)
    (i : ℕ) (d0 : α) (d : β) (hd : g d0 = d) :
    listGet (xs.map g) i d = g (listGet xs i d0) := by
  induction xs generalizing i with
  | nil => simpa [listGet] using hd.symm
  | cons a t ih =>
    cases i with
    | zero => simp [listGet]
    | succ n => simpa [listGet] using ih n

/-- C1: the sum over all timesteps of the per-time voxel count of a
group should equal its summary voxel count. On the concrete run with a
single timestep and one voxel of group 0 the summary cell holds 2 (the
increment of line 404 plus the one of line 405, whose group-time index
collapses onto the same summary cell at time 0) while every per-time
cell of the Num Voxels column stays 0, so the sum over timesteps is 0
and the equality fails. -/
theorem per_time_voxel_counts_stay_zero :
    resultNumVoxels (runProcess zeroDist inputOneVoxelOneTime) =
      some ([2, 0], [0, 0]) ∧ (0 : ℤ) + 0 ≠ 2 :=
  ⟨rfl, by decide⟩

/-- C2: the per-timestep roll-up should add the child totals into the
parent row of the same timestep. Exercising lines 480-531 on two groups
at time 0, child group 1 with parent 0 and child row counts 5 and 3:
the parent summary entries do receive the child totals (PerGroup
becomes [5, 5] and [3, 3]), but the per-time additions land in the row
of the child itself, row index numGroups * time + group = 1, which
doubles to 10 and 6, while the parent row (index 0) keeps 0. -/
theorem parent_accumulation_targets_child_row :
    (parentAccumulate 1 2 0 1 0 parentMergeState).colNumVoxels.PerGroup = [5, 5] ∧
    (parentAccumulate 1 2 0 1 0 parentMergeState).colNumVoxels.PerGroupPerTime = [0, 10] ∧
    (parentAccumulate 1 2 0 1 0 parentMergeState).colNumTopVoxels.PerGroup = [3, 3] ∧
    (parentAccumulate 1 2 0 1 0 parentMergeState).colNumTopVoxels.PerGroupPerTime = [0, 6] :=
  ⟨rfl, rfl, rfl, rfl⟩

/-- C3: process should never throw across its boundary. On the concrete
run with two timesteps and a voxel of group 0 at time 1, line 405 calls
vector::at on the summary Num Voxels column (length numGroups = 2) with
the group-time index numGroups * 1 + 0 = 2, so std::out_of_range
escapes the whole run. -/
theorem process_escapes_out_of_range :
    runProcess zeroDist inputOneVoxelTwoTimes =
      some (Except.error "std::out_of_range") :=
  rfl

/-- C10: the channel count assertion should evaluate to true whenever
the declared names match the component counts. With one volumetric
component and one declared name, and one surface component and one
declared name, the per-channel record vectors have length 1, and the
asserted condition 1 * 4 = 1 and 1 * 3 = 1 evaluates to false. -/
theorem channel_count_assert_rejects_matching_names :
    (mkColScalars ["s0"] 2 2).length = 1 ∧
    (mkColTopScalars ["t0"] 2 2).length = 1 ∧
    channelCountAssert 1 1 (mkColScalars ["s0"] 2 2) (mkColTopScalars ["t0"] 2 2) = false :=
  ⟨rfl, rfl, rfl⟩

/-- C8: every running min and max update takes the observed value
unconditionally when the accumulator holds the zero sentinel, and
otherwise is the plain min respectively max of accumulator and observed
value. -/
theorem assignMinMax_zero_sentinel {α : Type} [LinearOrder α] [Zero α]
    [DecidableEq α] :
    (∀ v : α, assignMin 0 v = v) ∧
    (∀ x v : α, x ≠ 0 → assignMin x v = min x v) ∧
    (∀ v : α, assignMax 0 v = v) ∧
    (∀ x v : α, x ≠ 0 → assignMax x v = max x v) := by
  refine ⟨fun v => ?_, fun x v hx => ?_, fun v => ?_, fun x v hx => ?_⟩
  · simp [assignMin]
  · simp [assignMin, hx]
  · simp [assignMax]
  · simp [assignMax, hx]

/-- Witness for C8 at concrete rationals: a nonzero accumulator follows
plain min, and a zero maximum accumulator takes the observed value. -/
theorem assignMinMax_zero_sentinel_witness :
    assignMin (2 : ℚ) 3 = min 2 3 ∧ assignMax (0 : ℚ) 7 = 7 :=
  ⟨assignMinMax_zero_sentinel.2.1 2 3 (by norm_num),
   assignMinMax_zero_sentinel.2.2.1 7⟩

/-- C6: numGroups is the minimum of the bound from the mask value range
and the hierarchy group count, the latter less one exactly when the
skip-last-group flag is set; with a hierarchy of 5 groups the cap is 4
with the flag set and 5 with it cleared, whenever the mask range
supports it. -/
theorem numGroups_skip_last_cap :
    (∀ (dataRangeY hierGroups : ℕ) (skipLast : Bool), 1 ≤ hierGroups →
      numGroupsOf dataRangeY hierGroups skipLast =
        min (dataRangeY - 1) (if skipLast then hierGroups - 1 else hierGroups)) ∧
    (∀ dataRangeY : ℕ, 5 ≤ dataRangeY → numGroupsOf dataRangeY 5 true = 4) ∧
    (∀ dataRangeY : ℕ, 6 ≤ dataRangeY → numGroupsOf dataRangeY 5 false = 5) := by
  refine ⟨?_, ?_, ?_⟩
  · intro r h skip hh
    have hne : h ≠ 0 := by omega
    cases skip <;> simp [numGroupsOf, sizetSub1, hne]
  · intro r hr
    have h4 : min (r - 1) 4 = 4 := min_eq_right (by omega)
    simpa [numGroupsOf, sizetSub1] using h4
  · intro r hr
    have h5 : min (r - 1) 5 = 5 := min_eq_right (by omega)
    simpa [numGroupsOf, sizetSub1] using h5

/-- Witness for C6: the general formula and both concrete caps at a mask
bound of 99. -/
theorem numGroups_skip_last_cap_witness :
    numGroupsOf 100 5 true = min (100 - 1) (if true then 5 - 1 else 5) ∧
    numGroupsOf 100 5 true = 4 ∧ numGroupsOf 100 5 false = 5 :=
  ⟨numGroups_skip_last_cap.1 100 5 true (by norm_num),
   numGroups_skip_last_cap.2.1 100 (by norm_num),
   numGroups_skip_last_cap.2.2 100 (by norm_num)⟩

theorem scalars_map_avg_keeps_surf (xs : List ScalarCols) (s : ℕ)
    (u : ScalarCols → ColumnPair ℚ)
    (hu : u (zeroScalarCols 0 0) = (zeroScalarCols 0 0).Average) :
    (listGet (xs.map (fun sc => { sc with Average := u sc })) s
        (zeroScalarCols 0 0)).Surface =
      (listGet xs s (zeroScalarCols 0 0)).Surface := by
  have hz : (fun sc => { sc with Average := u sc }) (zeroScalarCols 0 0) =
      zeroScalarCols 0 0 := by
    show ({ zeroScalarCols 0 0 with Average := u (zeroScalarCols 0 0) } : ScalarCols) =
      zeroScalarCols 0 0
    rw [hu]
  rw [listGet_map_with_default _ xs s _ _ hz]

theorem scalars_map_surf_keeps_avg (xs : List ScalarCols) (s : ℕ)
    (u : ScalarCols → ColumnPair ℚ)
    (hu : u (zeroScalarCols 0 0) = (zeroScalarCols 0 0).Surface) :
    (listGet (xs.map (fun sc => { sc with Surface := u sc })) s
        (zeroScalarCols 0 0)).Average =
      (listGet xs s (zeroScalarCols 0 0)).Average := by
  have hz : (fun sc => { sc with Surface := u sc }) (zeroScalarCols 0 0) =
      zeroScalarCols 0 0 := by
    show ({ zeroScalarCols 0 0 with Surface := u (zeroScalarCols 0 0) } : ScalarCols) =
      zeroScalarCols 0 0
    rw [hu]
  rw [listGet_map_with_default _ xs s _ _ hz]

theorem surf_map_PT_cell (xs : List ScalarCols) (s idx : ℕ) (f : ℚ → ℚ)
    (hf : f 0 = 0) :
    listGet (listGet (xs.map (fun sc =>
        { sc with Surface := modPT sc.Surface idx f })) s
        (zeroScalarCols 0 0)).Surface.PerGroupPerTime idx 0 =
      f (listGet (listGet xs s (zeroScalarCols 0 0)).Surface.PerGroupPerTime idx 0) := by
  have hz : (fun sc => { sc with Surface := modPT sc.Surface idx f } : ScalarCols → ScalarCols)
      (zeroScalarCols 0 0) = zeroScalarCols 0 0 := rfl
  rw [listGet_map_with_default _ xs s _ _ hz]
  show listGet (listModify (listGet xs s (zeroScalarCols 0 0)).Surface.PerGroupPerTime idx f) idx 0 = _
  rw [listGet_listModify_self]
  by_cases h : idx < (listGet xs s (zeroScalarCols 0 0)).Surface.PerGroupPerTime.length
  · rw [if_pos h]
  · rw [if_neg h, listGet_oob _ _ _ (Nat.le_of_not_lt h), hf]

theorem avg_map_PT_cell (xs : List ScalarCols) (s idx : ℕ) (f : ℚ → ℚ)
    (hf : f 0 = 0) :
    listGet (listGet (xs.map (fun sc =>
        { sc with Average := modPT sc.Average idx f })) s
        (zeroScalarCols 0 0)).Average.PerGroupPerTime idx 0 =
      f (listGet (listGet xs s (zeroScalarCols 0 0)).Average.PerGroupPerTime idx 0) := by
  have hz : (fun sc => { sc with Average := modPT sc.Average idx f } : ScalarCols → ScalarCols)
      (zeroScalarCols 0 0) = zeroScalarCols 0 0 := rfl
  rw [listGet_map_with_default _ xs s _ _ hz]
  show listGet (listModify (listGet xs s (zeroScalarCols 0 0)).Average.PerGroupPerTime idx f) idx 0 = _
  rw [listGet_listModify_self]
  by_cases h : idx < (listGet xs s (zeroScalarCols 0 0)).Average.PerGroupPerTime.length
  · rw [if_pos h]
  · rw [if_neg h, listGet_oob _ _ _ (Nat.le_of_not_lt h), hf]

theorem surf_map_PG_cell (xs : List ScalarCols) (s group : ℕ) (f : ℚ → ℚ)
    (hf : f 0 = 0) :
    listGet (listGet (xs.map (fun sc =>
        { sc with Surface := modPG sc.Surface group f })) s
        (zeroScalarCols 0 0)).Surface.PerGroup group 0 =
      f (listGet (listGet xs s (zeroScalarCols 0 0)).Surface.PerGroup group 0) := by
  have hz : (fun sc => { sc with Surface := modPG sc.Surface group f } : ScalarCols → ScalarCols)
      (zeroScalarCols 0 0) = zeroScalarCols 0 0 := rfl
  rw [listGet_map_with_default _ xs s _ _ hz]
  show listGet (listModify (listGet xs s (zeroScalarCols 0 0)).Surface.PerGroup group f) group 0 = _
  rw [listGet_listModify_self]
  by_cases h : group < (listGet xs s (zeroScalarCols 0 0)).Surface.PerGroup.length
  · rw [if_pos h]
  · rw [if_neg h, listGet_oob _ _ _ (Nat.le_of_not_lt h), hf]

theorem avg_map_PG_cell (xs : List ScalarCols) (s group : ℕ) (f : ℚ → ℚ)
    (hf : f 0 = 0) :
    listGet (listGet (xs.map (fun sc =>
        { sc with Average := modPG sc.Average group f })) s
        (zeroScalarCols 0 0)).Average.PerGroup group 0 =
      f (listGet (listGet xs s (zeroScalarCols 0 0)).Average.PerGroup group 0) := by
  have hz : (fun sc => { sc with Average := modPG sc.Average group f } : ScalarCols → ScalarCols)
      (zeroScalarCols 0 0) = zeroScalarCols 0 0 := rfl
  rw [listGet_map_with_default _ xs s _ _ hz]
  show listGet (listModify (listGet xs s (zeroScalarCols 0 0)).Average.PerGroup group f) group 0 = _
  rw [listGet_listModify_self]
  by_cases h : group < (listGet xs s (zeroScalarCols 0 0)).Average.PerGroup.length
  · rw [if_pos h]
  · rw [if_neg h, listGet_oob _ _ _ (Nat.le_of_not_lt h), hf]

/-- C9: the per-time aspect ratio cell written by the finalisation is
NaN (none) exactly when the quotient maxRadius / minRadius of the
vortex record found at the seed depth is non-finite, and carries the
quotient otherwise. -/
theorem aspect_ratio_nan_exactly_nonfinite (v : Vortex) (group idx : ℕ)
    (st : Stats) (h : idx < st.colAspectRatioPerTime.length) :
    (listGet (aspectRatioStep v group idx st).colAspectRatioPerTime idx (some 0) =
        none ↔ ratioIsFinite v.maxRadius v.minRadius = false) ∧
    (ratioIsFinite v.maxRadius v.minRadius = true →
      listGet (aspectRatioStep v group idx st).colAspectRatioPerTime idx (some 0) =
        some (v.maxRadius / v.minRadius)) := by
  by_cases hf : ratioIsFinite v.maxRadius v.minRadius
  · constructor
    · simp [aspectRatioStep, hf, listSet, listGet_listModify_self, h]
    · intro _
      simp [aspectRatioStep, hf, listSet, listGet_listModify_self, h]
  · constructor
    · simp [aspectRatioStep, hf, listSet, listGet_listModify_self, h]
    · intro hc
      exact absurd hc (by simpa using hf)

/-- Witness for C9: a vortex with zero minimum radius on a one-group
one-timestep table produces the NaN cell. -/
theorem aspect_ratio_nan_exactly_nonfinite_witness :
    listGet (aspectRatioStep vortexZeroMin 0 0
        (initStats 1 1 [] [] 0)).colAspectRatioPerTime 0 (some 0) = none := by
  exact (aspect_ratio_nan_exactly_nonfinite vortexZeroMin 0 0
    (initStats 1 1 [] [] 0) (by decide)).1.mpr (by decide)


/-- C7 as the code forces it to be amended: per-time average fields
(surface and volumetric) equal sum divided by count when the per-time
count is positive and keep their accumulator value otherwise; at
per-group granularity the same division happens only for groups with
nonzero lifetime, while a zero-lifetime group keeps every per-group
accumulator value regardless of counts, because the final pass skips it
entirely. -/
theorem average_fields_divide_by_counts (st : Stats) (idx group s : ℕ) :
    (surfPT (perTimeAverageDivide st idx) s idx =
      if 0 < listGet st.colNumTopVoxels.PerGroupPerTime idx 0 then
        surfPT st s idx / ((listGet st.colNumTopVoxels.PerGroupPerTime idx 0 : ℤ) : ℚ)
      else surfPT st s idx) ∧
    (avgPT (perTimeAverageDivide st idx) s idx =
      if 0 < listGet st.colNumVoxels.PerGroupPerTime idx 0 then
        avgPT st s idx / ((listGet st.colNumVoxels.PerGroupPerTime idx 0 : ℤ) : ℚ)
      else avgPT st s idx) ∧
    (listGet st.colLifeTime group 0 = 0 →
      (finalGroupUpdate st group).colScalars = st.colScalars) ∧
    (listGet st.colLifeTime group 0 ≠ 0 →
      (surfPG (finalGroupUpdate st group) s group =
        if 0 < listGet st.colNumTopVoxels.PerGroup group 0 then
          surfPG st s group / ((listGet st.colNumTopVoxels.PerGroup group 0 : ℤ) : ℚ)
        else surfPG st s group) ∧
      (avgPG (finalGroupUpdate st group) s group =
        if 0 < listGet st.colNumVoxels.PerGroup group 0 then
          avgPG st s group / ((listGet st.colNumVoxels.PerGroup group 0 : ℤ) : ℚ)
        else avgPG st s group)) := by
  refine ⟨?_, ?_, ?_, ?_⟩
  · set q1 : ℚ := ((listGet st.colNumTopVoxels.PerGroupPerTime idx 0 : ℤ) : ℚ) with hq1
    set q2 : ℚ := ((listGet st.colNumVoxels.PerGroupPerTime idx 0 : ℤ) : ℚ) with hq2
    by_cases h1 : (0 : ℤ) < listGet st.colNumTopVoxels.PerGroupPerTime idx 0
    · rw [if_pos h1]
      by_cases h2 : (0 : ℤ) < listGet st.colNumVoxels.PerGroupPerTime idx 0
      · simp only [surfPT, perTimeAverageDivide]
        simp only [h1, if_true, h2]
        rw [scalars_map_avg_keeps_surf _ s (fun sc => modPT sc.Average idx (· / q2)) rfl,
          surf_map_PT_cell _ s idx (· / q1) (zero_div q1)]
      · simp only [surfPT, perTimeAverageDivide]
        simp only [h1, if_true, h2, if_false]
        rw [surf_map_PT_cell _ s idx (· / q1) (zero_div q1)]
    · rw [if_neg h1]
      by_cases h2 : (0 : ℤ) < listGet st.colNumVoxels.PerGroupPerTime idx 0
      · simp only [surfPT, perTimeAverageDivide]
        simp only [h1, if_false, h2, if_true]
        rw [scalars_map_avg_keeps_surf _ s (fun sc => modPT sc.Average idx (· / q2)) rfl]
      · simp only [surfPT, perTimeAverageDivide]
        simp only [h1, if_false, h2]
  · set q1 : ℚ := ((listGet st.colNumTopVoxels.PerGroupPerTime idx 0 : ℤ) : ℚ) with hq1
    set q2 : ℚ := ((listGet st.colNumVoxels.PerGroupPerTime idx 0 : ℤ) : ℚ) with hq2
    by_cases h2 : (0 : ℤ) < listGet st.colNumVoxels.PerGroupPerTime idx 0
    · rw [if_pos h2]
      by_cases h1 : (0 : ℤ) < listGet st.colNumTopVoxels.PerGroupPerTime idx 0
      · simp only [avgPT, perTimeAverageDivide]
        simp only [h1, if_true, h2]
        rw [avg_map_PT_cell _ s idx (· / q2) (zero_div q2),
          scalars_map_surf_keeps_avg _ s (fun sc => modPT sc.Surface idx (· / q1)) rfl]
      · simp only [avgPT, perTimeAverageDivide]
        simp only [h1, if_false, h2, if_true]
        rw [avg_map_PT_cell _ s idx (· / q2) (zero_div q2)]
    · rw [if_neg h2]
      by_cases h1 : (0 : ℤ) < listGet st.colNumTopVoxels.PerGroupPerTime idx 0
      · simp only [avgPT, perTimeAverageDivide]
        simp only [h1, if_true, h2, if_false]
        rw [scalars_map_surf_keeps_avg _ s (fun sc => modPT sc.Surface idx (· / q1)) rfl]
      · simp only [avgPT, perTimeAverageDivide]
        simp only [h1, if_false, h2]
  · intro h0
    simp [finalGroupUpdate, h0]
  · intro hne
    have hne2 : ¬ listGet st.colLifeTime group 0 = 0 := hne
    set p1 : ℚ := ((listGet st.colNumTopVoxels.PerGroup group 0 : ℤ) : ℚ) with hp1
    set p2 : ℚ := ((listGet st.colNumVoxels.PerGroup group 0 : ℤ) : ℚ) with hp2
    constructor
    · by_cases hntv : (0 : ℤ) < listGet st.colNumTopVoxels.PerGroup group 0
      · rw [if_pos hntv]
        by_cases hnv : (0 : ℤ) < listGet st.colNumVoxels.PerGroup group 0
        · simp only [surfPG, finalGroupUpdate]
          simp only [hne2, if_false, hntv, if_true, hnv]
          rw [scalars_map_avg_keeps_surf _ s (fun sc => modPG sc.Average group (· / p2)) rfl,
            surf_map_PG_cell _ s group (· / p1) (zero_div p1)]
        · simp only [surfPG, finalGroupUpdate]
          simp only [hne2, if_false, hntv, if_true, hnv]
          rw [surf_map_PG_cell _ s group (· / p1) (zero_div p1)]
      · rw [if_neg hntv]
        by_cases hnv : (0 : ℤ) < listGet st.colNumVoxels.PerGroup group 0
        · simp only [surfPG, finalGroupUpdate]
          simp only [hne2, if_false, hntv, hnv, if_true]
          rw [scalars_map_avg_keeps_surf _ s (fun sc => modPG sc.Average group (· / p2)) rfl]
        · simp only [surfPG, finalGroupUpdate]
          simp only [hne2, if_false, hntv, hnv]
    · by_cases hnv : (0 : ℤ) < listGet st.colNumVoxels.PerGroup group 0
      · rw [if_pos hnv]
        by_cases hntv : (0 : ℤ) < listGet st.colNumTopVoxels.PerGroup group 0
        · simp only [avgPG, finalGroupUpdate]
          simp only [hne2, if_false, hntv, if_true, hnv]
          rw [avg_map_PG_cell _ s group (· / p2) (zero_div p2),
            scalars_map_surf_keeps_avg _ s (fun sc => modPG sc.Surface group (· / p1)) rfl]
        · simp only [avgPG, finalGroupUpdate]
          simp only [hne2, if_false, hntv, hnv, if_true]
          rw [avg_map_PG_cell _ s group (· / p2) (zero_div p2)]
      · rw [if_neg hnv]
        by_cases hntv : (0 : ℤ) < listGet st.colNumTopVoxels.PerGroup group 0
        · simp only [avgPG, finalGroupUpdate]
          simp only [hne2, if_false, hntv, if_true, hnv]
          rw [scalars_map_surf_keeps_avg _ s (fun sc => modPG sc.Surface group (· / p1)) rfl]
        · simp only [avgPG, finalGroupUpdate]
          simp only [hne2, if_false, hntv, hnv]

/-- C7 counterexample: a group seen only at one timestep has lifetime 0;
on lifetimeZeroState the final pass leaves the per-group volumetric
average at its accumulated sum 4 although the per-group voxel count is
2 and the claimed value sum / count would be 2. -/
theorem average_kept_despite_positive_count :
    listGet (finalPass 1 lifetimeZeroState).colLifeTime 0 0 = 0 ∧
    listGet (finalPass 1 lifetimeZeroState).colNumVoxels.PerGroup 0 0 = 2 ∧
    avgPG (finalPass 1 lifetimeZeroState) 0 0 = 4 ∧
    (4 : ℚ) ≠ 4 / 2 :=
  ⟨rfl, rfl, rfl, by norm_num⟩

/-- Witness for the amended C7 on dividedState (lifetime 1, count 2,
sum 4): the final pass divides and the per-group average becomes
sum / count. -/
theorem average_fields_divide_by_counts_witness :
    avgPG (finalGroupUpdate dividedState 0) 0 0 =
      if 0 < listGet dividedState.colNumVoxels.PerGroup 0 0 then
        avgPG dividedState 0 0 / ((listGet dividedState.colNumVoxels.PerGroup 0 0 : ℤ) : ℚ)
      else avgPG dividedState 0 0 :=
  ((average_fields_divide_by_counts dividedState 0 0 0).2.2.2 (by decide)).2

/-- C5: with the assemble flag set, every missing-or-empty-input shape
(mask or scalar series empty or mismatched in length, surface volume
absent, hierarchy absent) makes the guard a silent no-op and the run
writes no output; when all inputs are present and consistent in count
but the extents disagree (mask against scalar against surface spatial
extent against timestep count), the guard is the warned abort and the
run writes no output. -/
theorem guard_skips_missing_input_and_aborts_on_dims
    (distFn : ℚ × ℚ → ℚ × ℚ → ℚ) (inp : RunInput)
    (hA : inp.doAssemble = true) :
    (specNoWorkCond inp →
      guardOf inp = GuardResult.noop ∧ runProcess distFn inp = none) ∧
    (¬ specNoWorkCond inp → specDimsMismatch inp →
      guardOf inp = GuardResult.abortDims ∧ runProcess distFn inp = none) := by
  have hrun : ∀ {g : GuardResult}, guardOf inp = g → g ≠ GuardResult.proceed →
      runProcess distFn inp = none := by
    intro g hg hne
    have hstep : runProcess distFn inp =
        match guardOf inp with
        | GuardResult.proceed => some (runCore distFn inp)
        | _ => none := by
      simp [runProcess, hA]
    rw [hstep, hg]
    cases g with
    | proceed => exact absurd rfl hne
    | noop => rfl
    | abortDims => rfl
  constructor
  · intro hw
    have hg : guardOf inp = GuardResult.noop := by
      rcases hmask : inp.maskVolumes with _ | ms
      · simp [guardOf, hmask]
      rcases hscal : inp.scalarVolumes with _ | ss
      · simp [guardOf, hmask, hscal]
      rcases htop : inp.topScalarVolume with _ | tp
      · simp [guardOf, hmask, hscal, htop]
      rcases hvor : inp.vortices with _ | vs
      · simp [guardOf, hmask, hscal, htop, hvor]
      rcases hw with h | h | h | h | h | h
      · rw [hmask] at h; exact absurd h (by simp)
      · rw [hscal] at h; exact absurd h (by simp)
      · rw [htop] at h; exact absurd h (by simp)
      · rw [hvor] at h; exact absurd h (by simp)
      · rw [hmask] at h; simp only [Option.getD_some] at h
        simp [guardOf, hmask, hscal, htop, hvor, h]
      · rw [hmask, hscal] at h; simp only [Option.getD_some] at h
        by_cases hml : ms.length = 0
        · simp [guardOf, hmask, hscal, htop, hvor, hml]
        · simp [guardOf, hmask, hscal, htop, hvor, hml, h]
    exact ⟨hg, hrun hg (by simp)⟩
  · intro hnw hdm
    rcases hmask : inp.maskVolumes with _ | ms
    · exact absurd (Or.inl hmask) hnw
    rcases hscal : inp.scalarVolumes with _ | ss
    · exact absurd (Or.inr (Or.inl hscal)) hnw
    rcases htop : inp.topScalarVolume with _ | tp
    · exact absurd (Or.inr (Or.inr (Or.inl htop))) hnw
    rcases hvor : inp.vortices with _ | vs
    · exact absurd (Or.inr (Or.inr (Or.inr (Or.inl hvor)))) hnw
    have hml : ms.length ≠ 0 := by
      intro h
      exact hnw (Or.inr (Or.inr (Or.inr (Or.inr (Or.inl
        (by rw [hmask]; simpa using h))))))
    have hll : ¬ ss.length ≠ ms.length := by
      intro h
      exact hnw (Or.inr (Or.inr (Or.inr (Or.inr (Or.inr
        (by rw [hmask, hscal]; simpa using h))))))
    have hdmB : dimsMismatch ms ss tp = true := by
      simp only [specDimsMismatch, hmask, hscal, htop, Option.getD_some] at hdm
      simp only [dimsMismatch, Bool.or_eq_true, decide_eq_true_eq]
      tauto
    have hg : guardOf inp = GuardResult.abortDims := by
      simp [guardOf, hmask, hscal, htop, hvor, hml, hll, hdmB]
    exact ⟨hg, hrun hg (by simp)⟩

/-- Witness for C5: the fully absent input is a silent no-op. -/
theorem guard_skips_missing_input_witness :
    guardOf noopInput = GuardResult.noop ∧
    runProcess zeroDist noopInput = none :=
  (guard_skips_missing_input_and_aborts_on_dims zeroDist noopInput rfl).1
    (Or.inl rfl)

/-- C4: the travelled distance should be the sum of Euclidean distances
between consecutive recorded centres, the first centre contributing
nothing. For a group whose centre is recorded as (3, 4) at times 0 and
1 that sum is 0, but since the start-time branch does not write
prevCenters, the update at time 1 measures from the origin and the code
accumulates 5. -/
theorem travelled_distance_measures_from_origin :
    (runCenterUpdates [((3 : ℚ), (4 : ℚ)), ((3 : ℚ), (4 : ℚ))]).colTravel = 5 ∧
    sumConsecutiveDistances [((3 : ℚ), (4 : ℚ)), ((3 : ℚ), (4 : ℚ))] = 0 ∧
    (5 : ℝ) ≠ 0 := by
  have h5 : euclidDist ((3 : ℚ), (4 : ℚ)) ((0 : ℚ), (0 : ℚ)) = 5 := by
    unfold euclidDist
    have h25 : ((((3 : ℚ) - 0) ^ 2 + ((4 : ℚ) - 0) ^ 2 : ℚ) : ℝ) = 25 := by
      push_cast
      norm_num
    rw [h25, show (25 : ℝ) = 5 ^ 2 by norm_num, Real.sqrt_sq (by norm_num)]
  have h0 : euclidDist ((3 : ℚ), (4 : ℚ)) ((3 : ℚ), (4 : ℚ)) = 0 := by
    unfold euclidDist
    have hz : ((((3 : ℚ) - 3) ^ 2 + ((4 : ℚ) - 4) ^ 2 : ℚ) : ℝ) = 0 := by
      push_cast
      norm_num
    rw [hz, Real.sqrt_zero]
  refine ⟨?_, ?_, by norm_num⟩
  · have h5b : euclidDist ((3 : ℚ), (4 : ℚ)) (0 : ℚ × ℚ) = 5 := h5
    show (runCenterUpdatesAux 0 initTravelState _).colTravel = 5
    simp [runCenterUpdatesAux, centerTravelStep, initTravelState, h5, h5b]
  · simp [sumConsecutiveDistances, h0]
